import Mathlib

/-!
Shallow embedding of the voice-transcriber transcription server
(`src/python/transcription_server.py` and `src/python/text_cleanup.py`).

The two external inference collaborators (the parakeet ASR model and the
mlx-lm refinement model), the filesystem existence check and the chat
template step are modelled as an oracle record `Env`: the code under
verification only calls them and branches on their results.  Faulting
collaborator calls (Python exceptions) are modelled with `Except String`.

Times attached to sentences are modelled as rationals: the server never
computes with them, it only copies the values produced by the ASR
collaborator, so the choice of number type is immaterial to the claims.

Python `str.strip()` is modelled by `pyStrip` (drop leading and trailing
whitespace characters), `len` by `String.length` (both count code points)
and the slice `response[len(prompt):]` by `pyDrop`; these are written as
structural recursions over the character list so that concrete witnesses
evaluate by `decide`.  The acceptance threshold `len(cleaned) < len(text) * 0.3`
is a Python float comparison; for all lengths below 2^50 it coincides with
the exact rational comparison `10 * len(cleaned) < 3 * len(text)`, which is
how it is written here.

Two ghost fields instrument `cleanup`: `wasRefined` records that the accept
branch (the `return cleaned_text` at the end of the `try`) produced the
result, and `invoked` records that the generation collaborator was called.
Neither influences the returned text.
-/

/-- One sentence of an ASR result: `{text, start, end, duration}`. -/
structure Sentence where
  text : String
  start : ℚ
  «end» : ℚ
  duration : ℚ
  deriving DecidableEq, Repr

/-- Result of the ASR collaborator `model.transcribe(path)`. -/
structure ASRResult where
  text : String
  sentences : List Sentence
  deriving DecidableEq, Repr

/-- A chat message `{"role": ..., "content": ...}`. -/
structure Message where
  role : String
  content : String
  deriving DecidableEq, Repr

/-- Oracle record for everything outside the verified core: the filesystem
check `Path(p).exists()`, the ASR call `model.transcribe(p)`, the tokenizer
chat template, and the refinement generation call (prompt, max_tokens).
Faulting calls are `Except.error` carrying `str(e)`. -/
structure Env where
  fsExists : String → Bool
  asr : String → Except String ASRResult
  chatTemplate : List Message → String
  generate : String → Nat → Except String String

/-- A response line: a transcribe success envelope, a message success
envelope (ping/quit), or an error envelope. -/
inductive Response where
  | okTranscribe (text : String) (original_text : Option String)
      (sentences : List Sentence)
  | okMessage (message : String)
  | error (msg : String)
  deriving DecidableEq, Repr

/-- Result of one `TextCleanup.cleanup` call.  `result` is the returned
string; `wasRefined` and `invoked` are ghost flags (see module comment). -/
structure CleanupResult where
  result : String
  wasRefined : Bool
  invoked : Bool
  deriving DecidableEq, Repr

/-- State of a constructed `TextCleanup` object: the `enabled` flag and the
prompt dictionary `self.prompts`. -/
structure TextCleanup where
  enabled : Bool
  prompts : String → Option String

/-- State of a constructed `TranscriptionServer` object (the fields the
claims depend on). -/
structure TranscriptionServer where
  cleanup_enabled : Bool
  cleanup_prompt : String
  text_cleanup : Option TextCleanup

/-- A parsed input line of the protocol loop: either `json.loads` raised a
`JSONDecodeError` (with `str(e)` as details) or it produced a command
object.  `action`, `audio_path` and `cleanup_prompt` are read with
`command.get(...)`, hence `Option`. -/
structure Command where
  action : Option String
  audio_path : Option String
  cleanup_prompt : Option String

/-- One raw input line, as seen after the parse step. -/
inductive InLine where
  | invalid (details : String)
  | valid (cmd : Command)

/-- The built-in "general" system prompt from `DEFAULT_PROMPTS`. -/
def generalPrompt : String :=
  "You are a text cleanup assistant. Fix any transcription errors, formatting issues, and improve readability. Keep the same meaning but make it more natural and correctly formatted. Do not add extra information or change the meaning.\n\nRules:\n- Fix obvious transcription errors\n- Correct punctuation and capitalization\n- Keep the text concise\n- Return ONLY the cleaned text, nothing else"

/-- The built-in "coding" system prompt from `DEFAULT_PROMPTS`. -/
def codingPrompt : String :=
  "You are a coding transcription cleanup assistant. Fix transcription errors and format code-related content properly.\n\nRules:\n- Convert spoken file references to proper format (e.g., \"main dot py\" → \"main.py\")\n- Format code variable names properly (e.g., \"get user by ID\" → \"getUserById\")\n- Use @ symbol for file mentions when appropriate (e.g., \"in the file main dot py\" → \"in the file @main.py\")\n- Fix technical terminology and programming language names\n- Keep code snippets and commands properly formatted\n- Return ONLY the cleaned text, nothing else"

/-- The built-in "punctuation" system prompt from `DEFAULT_PROMPTS`. -/
def punctuationPrompt : String :=
  "You are a punctuation assistant. Add proper punctuation and capitalization to transcribed text while keeping it natural.\n\nRules:\n- Add periods, commas, and appropriate punctuation\n- Capitalize sentence beginnings and proper nouns\n- Keep the exact same words, only fix punctuation\n- Return ONLY the cleaned text, nothing else"

/-- The `DEFAULT_PROMPTS` dictionary, as a lookup function. -/
def DEFAULT_PROMPTS : String → Option String := fun k =>
  if k = "general" then some generalPrompt
  else if k = "coding" then some codingPrompt
  else if k = "punctuation" then some punctuationPrompt
  else none

/-- Python `dict.update`: apply the override bindings key-by-key,
insert-or-replace, later bindings winning. -/
def dictUpdate (base : String → Option String)
    (overrides : List (String × String)) : String → Option String :=
  overrides.foldl (fun m kv => fun q => if q = kv.1 then some kv.2 else m q) base

/-- The last binding of a key in an override list (the one `dict.update`
keeps). -/
def lastAssoc : List (String × String) → String → Option String
  | [], _ => none
  | kv :: rest, k =>
    match lastAssoc rest k with
    | some v => some v
    | none => if k = kv.1 then some kv.2 else none

/-- Python `self.prompts.get(prompt_type, self.prompts["general"])`.
`none` means the fallback `self.prompts["general"]` itself raised
`KeyError` (impossible for dictionaries seeded from `DEFAULT_PROMPTS`). -/
def promptGet (prompts : String → Option String) (prompt_type : String) :
    Option String :=
  match prompts prompt_type with
  | some p => some p
  | none => prompts "general"

/-- The two-message exchange built in `TextCleanup.cleanup`. -/
def messagesFor (system_prompt text : String) : List Message :=
  [⟨"system", system_prompt⟩, ⟨"user", "Clean up this text:\n\n" ++ text⟩]

/-- Python `str.strip()`: remove leading and trailing whitespace.  Written
as structural recursion over the character list so it evaluates inside the
kernel (unlike `String.trim`, which is defined by well-founded recursion). -/
def pyStrip (s : String) : String :=
  String.mk (((s.data.dropWhile Char.isWhitespace).reverse.dropWhile
    Char.isWhitespace).reverse)

/-- Python slicing `s[n:]` by code points. -/
def pyDrop (s : String) (n : Nat) : String :=
  String.mk (s.data.drop n)

/-- Constructor `TextCleanup.__init__`.  `mlxAvailable` models whether the
`mlx_lm` import succeeded; `loadResult` is the outcome of the collaborator
`load(model_name)` call.  `_load_model` catches a load fault, disables
itself, and RE-RAISES, so a load fault escapes the constructor — modelled
by returning `Except.error`. -/
def TextCleanup.init (mlxAvailable : Bool) (loadResult : Except String Unit)
    (enabled : Bool) (custom_prompts : List (String × String)) :
    Except String TextCleanup :=
  let en := enabled && mlxAvailable
  let prompts := dictUpdate DEFAULT_PROMPTS custom_prompts
  if en then
    match loadResult with
    | .ok _ => .ok ⟨true, prompts⟩
    | .error e => .error e
  else .ok ⟨false, prompts⟩

/-- Method `TextCleanup.cleanup`.  Mirrors the source line by line: the
guard `not self.enabled or not text or not text.strip()`, the prompt
lookup, the chat-template and generate collaborator calls, the slice
`response[len(prompt):].strip()`, and the acceptance heuristic
`not cleaned_text or len(cleaned_text) < len(text) * 0.3` (written with the
equivalent exact comparison `10 * len < 3 * len`).  Every `except` path
returns the original text. -/
def TextCleanup.cleanup (tc : TextCleanup) (env : Env) (text : String)
    (prompt_type : String) (max_tokens : Nat) : CleanupResult :=
  if tc.enabled = false ∨ text = "" ∨ pyStrip text = "" then
    ⟨text, false, false⟩
  else
    match promptGet tc.prompts prompt_type with
    | none => ⟨text, false, false⟩
    | some system_prompt =>
      let prompt := env.chatTemplate (messagesFor system_prompt text)
      match env.generate prompt max_tokens with
      | .error _ => ⟨text, false, true⟩
      | .ok response =>
        let cleaned_text := pyStrip (pyDrop response prompt.length)
        if cleaned_text = "" ∨ 10 * cleaned_text.length < 3 * text.length then
          ⟨text, false, true⟩
        else
          ⟨cleaned_text, true, true⟩

/-- The stripped candidate the collaborator produces for a given input,
following exactly the construction inside `cleanup`: `none` when the prompt
lookup fails or the collaborator faults. -/
def candidateOf (tc : TextCleanup) (env : Env) (text prompt_type : String)
    (max_tokens : Nat) : Option String :=
  match promptGet tc.prompts prompt_type with
  | none => none
  | some system_prompt =>
    let prompt := env.chatTemplate (messagesFor system_prompt text)
    match env.generate prompt max_tokens with
    | .error _ => none
    | .ok response => some (pyStrip (pyDrop response prompt.length))

/-- Python `cleanup_prompt or self.cleanup_prompt`: `None` and the empty
string are falsy. -/
def orDefault (o : Option String) (d : String) : String :=
  match o with
  | none => d
  | some s => if s = "" then d else s

/-- Constructor `TranscriptionServer.__init__`.  `asrLoad` is the mandatory
`from_pretrained` call (a fault propagates out, killing startup);
`tcModuleAvailable` models the `text_cleanup` import; a fault raised by
`TextCleanup(...)` is caught here and downgrades `text_cleanup` to `None`. -/
def TranscriptionServer.init (asrLoad : Except String Unit)
    (cleanup_enabled : Bool) (cleanup_prompt : String)
    (tcModuleAvailable : Bool) (mlxAvailable : Bool)
    (cleanupLoad : Except String Unit)
    (custom_prompts : List (String × String)) :
    Except String TranscriptionServer :=
  match asrLoad with
  | .error e => .error e
  | .ok _ =>
    let tc : Option TextCleanup :=
      if cleanup_enabled && tcModuleAvailable then
        match TextCleanup.init mlxAvailable cleanupLoad true custom_prompts with
        | .ok t => some t
        | .error _ => none
      else none
    .ok ⟨cleanup_enabled, cleanup_prompt, tc⟩

/-- The cleanup step inside `TranscriptionServer.transcribe`:
`if self.text_cleanup and self.cleanup_enabled:` then call `cleanup` with
the resolved prompt; otherwise the text passes through untouched. -/
def cleanupStep (srv : TranscriptionServer) (env : Env)
    (cleanup_prompt : Option String) (original_text : String) : CleanupResult :=
  match srv.text_cleanup with
  | some tc =>
    if srv.cleanup_enabled then
      tc.cleanup env original_text (orDefault cleanup_prompt srv.cleanup_prompt) 512
    else ⟨original_text, false, false⟩
  | none => ⟨original_text, false, false⟩

/-- Method `TranscriptionServer.transcribe`.  The second component of the
pair is a ghost flag: `true` iff the ASR collaborator was invoked. -/
def TranscriptionServer.transcribe (srv : TranscriptionServer) (env : Env)
    (audio_path : String) (cleanup_prompt : Option String) :
    Response × Bool :=
  if env.fsExists audio_path = false then
    (Response.error ("Audio file not found: " ++ audio_path), false)
  else
    match env.asr audio_path with
    | .error e => (Response.error ("Transcription failed: " ++ e), true)
    | .ok result =>
      let original_text := result.text
      let cres := cleanupStep srv env cleanup_prompt original_text
      let cleaned_text := cres.result
      (Response.okTranscribe cleaned_text
        (if cleaned_text = original_text then none else some original_text)
        (result.sentences.map fun s => ⟨s.text, s.start, s.«end», s.duration⟩),
       true)

/-- Python f-string rendering of the action value: `None` when absent. -/
def actionStr : Option String → String
  | none => "None"
  | some s => s

/-- The transcribe branch of the dispatch: `if not audio_path:` treats both
a missing key and an empty string as missing. -/
def transcribeResp (srv : TranscriptionServer) (env : Env) (c : Command) :
    Response :=
  match c.audio_path with
  | none => Response.error "Missing audio_path parameter"
  | some p =>
    if p = "" then Response.error "Missing audio_path parameter"
    else (srv.transcribe env p c.cleanup_prompt).1

/-- Whether a parsed line is a valid command with `action == "quit"`. -/
def isQuitLine : InLine → Bool
  | .invalid _ => false
  | .valid c => decide (c.action = some "quit")

/-- The protocol loop `TranscriptionServer.run`, as a function from the
stream of parsed input lines to the stream of emitted response lines.  The
if/elif chain mirrors the source dispatch; `quit` emits its response and
breaks. -/
def runLoop (srv : TranscriptionServer) (env : Env) :
    List InLine → List Response
  | [] => []
  | InLine.invalid d :: rest =>
    Response.error ("Invalid JSON: " ++ d) :: runLoop srv env rest
  | InLine.valid c :: rest =>
    if c.action = some "transcribe" then
      transcribeResp srv env c :: runLoop srv env rest
    else if c.action = some "ping" then
      Response.okMessage "pong" :: runLoop srv env rest
    else if c.action = some "quit" then
      [Response.okMessage "Shutting down"]
    else
      Response.error ("Unknown action: " ++ actionStr c.action) :: runLoop srv env rest

/-- The response the dispatch produces for one line (quit included). -/
def respOf (srv : TranscriptionServer) (env : Env) : InLine → Response
  | .invalid d => Response.error ("Invalid JSON: " ++ d)
  | .valid c =>
    if c.action = some "transcribe" then transcribeResp srv env c
    else if c.action = some "ping" then Response.okMessage "pong"
    else if c.action = some "quit" then Response.okMessage "Shutting down"
    else Response.error ("Unknown action: " ++ actionStr c.action)

/-- Time-ordering of a sentence list: each sentence has `start ≤ end` and
starts are nondecreasing along the list. -/
def timeOrdered (l : List Sentence) : Prop :=
  (∀ s ∈ l, s.start ≤ s.«end») ∧ l.Chain' (fun a b => a.start ≤ b.start)

/-! Helper lemmas shared by the claim theorems. -/

lemma cleanup_result_of_not_refined (tc : TextCleanup) (env : Env)
    (text prompt_type : String) (max_tokens : Nat) :
    (tc.cleanup env text prompt_type max_tokens).wasRefined = false →
    (tc.cleanup env text prompt_type max_tokens).result = text := by
  simp only [TextCleanup.cleanup]
  split
  · intro _; rfl
  · split
    · intro _; rfl
    · split
      · intro _; rfl
      · split
        · intro _; rfl
        · intro h; simp at h

lemma cleanupStep_result_of_not_refined (srv : TranscriptionServer) (env : Env)
    (cp : Option String) (t : String) :
    (cleanupStep srv env cp t).wasRefined = false →
    (cleanupStep srv env cp t).result = t := by
  simp only [cleanupStep]
  split
  · split
    · exact cleanup_result_of_not_refined _ _ _ _ _
    · intro _; rfl
  · intro _; rfl

lemma runLoop_cons (srv : TranscriptionServer) (env : Env) (l : InLine)
    (rest : List InLine) :
    runLoop srv env (l :: rest) =
      if isQuitLine l then [Response.okMessage "Shutting down"]
      else respOf srv env l :: runLoop srv env rest := by
  cases l with
  | invalid d => rfl
  | valid c =>
    by_cases h1 : c.action = some "transcribe"
    · have hq : isQuitLine (InLine.valid c) = false := by simp [isQuitLine, h1]
      simp [runLoop, respOf, hq, h1]
    · by_cases h2 : c.action = some "ping"
      · have hq : isQuitLine (InLine.valid c) = false := by simp [isQuitLine, h2]
        simp [runLoop, respOf, hq, h1, h2]
      · by_cases h3 : c.action = some "quit"
        · have hq : isQuitLine (InLine.valid c) = true := by simp [isQuitLine, h3]
          simp [runLoop, respOf, hq, h1, h2, h3]
        · have hq : isQuitLine (InLine.valid c) = false := by simp [isQuitLine, h3]
          simp [runLoop, respOf, hq, h1, h2, h3]

lemma runLoop_append_no_quit (srv : TranscriptionServer) (env : Env)
    (pre rest : List InLine) (h : ∀ l ∈ pre, isQuitLine l = false) :
    runLoop srv env (pre ++ rest) =
      runLoop srv env pre ++ runLoop srv env rest := by
  induction pre with
  | nil => rfl
  | cons l pre ih =>
    have hl := h l (List.mem_cons_self l pre)
    have ih' := ih (fun x hx => h x (List.mem_cons_of_mem _ hx))
    rw [List.cons_append, runLoop_cons, runLoop_cons, hl]
    simp [ih']

lemma runLoop_length_no_quit (srv : TranscriptionServer) (env : Env)
    (lines : List InLine) (h : ∀ l ∈ lines, isQuitLine l = false) :
    (runLoop srv env lines).length = lines.length := by
  induction lines with
  | nil => rfl
  | cons l ls ih =>
    have hl := h l (List.mem_cons_self l ls)
    have ih' := ih (fun x hx => h x (List.mem_cons_of_mem _ hx))
    rw [runLoop_cons, hl]
    simp [ih']

lemma map_sentence_eta (l : List Sentence) :
    (l.map fun s => Sentence.mk s.text s.start s.«end» s.duration) = l := by
  induction l with
  | nil => rfl
  | cons s ls ih => cases s; simp [ih]

/-! Concrete instances used by witnesses and counterexamples. -/

/-- A server whose refinement subsystem was never constructed. -/
def srvPlain : TranscriptionServer := ⟨true, "general", none⟩

/-- An environment where no audio file exists and every collaborator faults. -/
def envNoFile : Env :=
  ⟨fun _ => false, fun _ => Except.error "no asr", fun _ => "",
   fun _ _ => Except.error "no llm"⟩

/-! Claim theorems. -/

/-- C4: an input line that fails JSON parsing makes the loop emit exactly one
error response `{"error": "Invalid JSON: <details>"}` and continue: the loop
does not terminate there, and a following valid line (here a `ping`) is
processed normally. -/
theorem C4_invalid_json (srv : TranscriptionServer) (env : Env) (d : String)
    (rest : List InLine) :
    runLoop srv env (InLine.invalid d :: rest) =
      Response.error ("Invalid JSON: " ++ d) :: runLoop srv env rest ∧
    runLoop srv env
        (InLine.invalid d :: InLine.valid ⟨some "ping", none, none⟩ :: rest) =
      Response.error ("Invalid JSON: " ++ d) :: Response.okMessage "pong" ::
        runLoop srv env rest :=
  ⟨rfl, rfl⟩

/-- C5: a transcribe request whose audio path does not reference an existing
file yields `{"error": "Audio file not found: <path>"}`, and the ASR
collaborator is not invoked (the ghost invocation flag is `false`). -/
theorem C5_missing_audio_file (srv : TranscriptionServer) (env : Env)
    (p : String) (cp : Option String) (h : env.fsExists p = false) :
    srv.transcribe env p cp =
      (Response.error ("Audio file not found: " ++ p), false) := by
  simp [TranscriptionServer.transcribe, h]

/-- Witness for C5 at the spec's own example path. -/
theorem C5_witness :
    envNoFile.fsExists "/tmp/missing.wav" = false ∧
    srvPlain.transcribe envNoFile "/tmp/missing.wav" none =
      (Response.error ("Audio file not found: " ++ "/tmp/missing.wav"), false) :=
  ⟨rfl, C5_missing_audio_file srvPlain envNoFile "/tmp/missing.wav" none rfl⟩

/-- C6: on raw text that is empty or whitespace-only, `cleanup` returns the
text unchanged with `wasRefined = false` and never invokes the refinement
collaborator (ghost `invoked` flag is `false`).  The hypothesis
`pyStrip text = ""` covers both the empty string and whitespace-only
strings, exactly like the guard `not text or not text.strip()`. -/
theorem C6_whitespace_only (tc : TextCleanup) (env : Env)
    (text prompt_type : String) (max_tokens : Nat) (h : pyStrip text = "") :
    tc.cleanup env text prompt_type max_tokens = ⟨text, false, false⟩ := by
  unfold TextCleanup.cleanup
  rw [if_pos (Or.inr (Or.inr h))]

/-- Witness for C6 on a whitespace-only input. -/
theorem C6_witness :
    pyStrip "  \n " = "" ∧
    TextCleanup.cleanup ⟨true, DEFAULT_PROMPTS⟩ envNoFile "  \n " "general" 512 =
      ⟨"  \n ", false, false⟩ :=
  ⟨by decide,
   C6_whitespace_only ⟨true, DEFAULT_PROMPTS⟩ envNoFile "  \n " "general" 512
     (by decide)⟩

/-- C10: a transcribe request whose `audio_path` field is present but equal
to the empty string gets `{"error": "Missing audio_path parameter"}` (the
empty string is falsy under `if not audio_path:`), and no transcription is
attempted: the response holds for every environment, including ones where
the empty path would "exist". -/
theorem C10_empty_audio_path (srv : TranscriptionServer) (env : Env)
    (cp : Option String) (rest : List InLine) :
    runLoop srv env (InLine.valid ⟨some "transcribe", some "", cp⟩ :: rest) =
      Response.error "Missing audio_path parameter" :: runLoop srv env rest :=
  rfl

/-- A `TextCleanup` in its default state: refinement enabled, no user
overrides (so `prompts` is the seeded built-in table). -/
def tcOn : TextCleanup := ⟨true, dictUpdate DEFAULT_PROMPTS []⟩

/-- An environment whose refinement collaborator deterministically returns
the completion "hello" (the chat template is the empty string, so the whole
response is the candidate). -/
def envHello : Env :=
  ⟨fun _ => false, fun _ => Except.error "", fun _ => "",
   fun _ _ => Except.ok "hello"⟩

/-- An environment whose refinement collaborator returns " Hello, world. ". -/
def envRefine : Env :=
  ⟨fun _ => false, fun _ => Except.error "", fun _ => "",
   fun _ _ => Except.ok " Hello, world. "⟩

/-- Counterexample to C1 as stated.  The claim quantifies over every
NON-EMPTY raw text, but the code's guard is `not text or not text.strip()`:
for the whitespace-only (hence non-empty) raw text `" "`, with refinement
enabled and a non-faulting collaborator whose stripped candidate is
`"hello"` (non-empty and of length 5, which is not less than 30% of the raw
length 1), the claim demands that `cleanup` return the candidate with
`wasRefined = true`; the code instead returns the raw text `" "` unchanged
with `wasRefined = false` without ever invoking the collaborator. -/
theorem C1_counterexample :
    tcOn.enabled = true ∧ (" " : String) ≠ "" ∧
    candidateOf tcOn envHello " " "general" 512 = some "hello" ∧
    ¬(("hello" : String) = "" ∨
      10 * String.length "hello" < 3 * String.length " ") ∧
    TextCleanup.cleanup tcOn envHello " " "general" 512 =
      ⟨" ", false, false⟩ := by
  refine ⟨rfl, by decide, by decide, by decide, by decide⟩

/-- C1 amended: for every raw text that is non-empty AFTER STRIPPING (the
counterexample forces weakening "non-empty" to "not whitespace-only"), with
refinement enabled and a non-faulting collaborator producing stripped
candidate `cand`, the acceptance heuristic is applied exactly: if `cand` is
empty or its length is strictly below 30% of the raw length, `cleanup`
returns the raw text with `wasRefined = false`; otherwise it returns `cand`
with `wasRefined = true`. -/
theorem C1_acceptance_heuristic (tc : TextCleanup) (env : Env)
    (text prompt_type : String) (max_tokens : Nat) (cand : String)
    (he : tc.enabled = true) (hw : pyStrip text ≠ "")
    (hc : candidateOf tc env text prompt_type max_tokens = some cand) :
    ((cand = "" ∨ 10 * cand.length < 3 * text.length) →
      tc.cleanup env text prompt_type max_tokens = ⟨text, false, true⟩) ∧
    (¬(cand = "" ∨ 10 * cand.length < 3 * text.length) →
      tc.cleanup env text prompt_type max_tokens = ⟨cand, true, true⟩) := by
  have htext : text ≠ "" := by
    intro h
    exact hw (by rw [h]; rfl)
  have hguard : ¬(tc.enabled = false ∨ text = "" ∨ pyStrip text = "") := by
    simp [he, htext, hw]
  simp only [TextCleanup.cleanup, candidateOf] at *
  rw [if_neg hguard]
  cases hp : promptGet tc.prompts prompt_type with
  | none => rw [hp] at hc; simp at hc
  | some system_prompt =>
    rw [hp] at hc
    simp only at hc ⊢
    cases hg : env.generate (env.chatTemplate (messagesFor system_prompt text))
        max_tokens with
    | error e => rw [hg] at hc; simp at hc
    | ok response =>
      rw [hg] at hc
      simp only [Option.some.injEq] at hc
      subst hc
      refine ⟨fun hshort => ?_, fun hlong => ?_⟩
      · simp [hshort]
      · simp [hlong]

/-- Witness for the amended C1: a long-enough candidate is accepted. -/
theorem C1_witness :
    TextCleanup.cleanup tcOn envRefine "hello world" "general" 512 =
      ⟨"Hello, world.", true, true⟩ := by
  have h := C1_acceptance_heuristic tcOn envRefine "hello world" "general" 512
    "Hello, world." rfl (by decide) (by decide)
  exact h.2 (by decide)

/-- Counterexample to C2 as stated.  The claim says every refinement
collaborator fault — load failure included — is caught inside the
Refinement Validator and never propagates to the Orchestrator.  But
`TextCleanup._load_model` catches the load fault and RE-RAISES it, so the
fault escapes the `TextCleanup` constructor (modelled as `Except.error`);
it is the Orchestrator's `TranscriptionServer.__init__` that catches it. -/
theorem C2_counterexample :
    TextCleanup.init true (Except.error "model load failed") true [] =
      Except.error "model load failed" := rfl

/-- C2 amended: a generation fault is caught inside the Refinement
Validator's `cleanup` and yields the unmodified raw text with
`wasRefined = false`; a load fault escapes the Validator's constructor but
is caught by the Orchestrator's initialization, which downgrades
`text_cleanup` to `None` — so the server still constructs successfully and
no refinement fault reaches the protocol loop. -/
theorem C2_fault_containment (tc : TextCleanup) (env : Env)
    (text prompt_type : String) (max_tokens : Nat)
    (hgen : ∀ p n, ∃ e, env.generate p n = Except.error e) :
    ((tc.cleanup env text prompt_type max_tokens).result = text ∧
     (tc.cleanup env text prompt_type max_tokens).wasRefined = false) ∧
    (∀ (ce : Bool) (cp : String) (custom : List (String × String)) (e : String),
      TranscriptionServer.init (Except.ok ()) ce cp true true
          (Except.error e) custom =
        Except.ok ⟨ce, cp, none⟩) := by
  constructor
  · simp only [TextCleanup.cleanup]
    split
    · exact ⟨rfl, rfl⟩
    · cases hp : promptGet tc.prompts prompt_type with
      | none => exact ⟨rfl, rfl⟩
      | some system_prompt =>
        simp only
        obtain ⟨e, he⟩ :=
          hgen (env.chatTemplate (messagesFor system_prompt text)) max_tokens
        rw [he]
        exact ⟨rfl, rfl⟩
  · intro ce cp custom e
    cases ce <;> rfl

/-- An environment whose generation collaborator always faults. -/
def envGenFail : Env :=
  ⟨fun _ => true, fun _ => Except.error "", fun _ => "",
   fun _ _ => Except.error "generation failed"⟩

/-- Witness for the amended C2: a faulting generator falls back to the raw
text, and a failing cleanup-model load still lets the server construct with
refinement disabled. -/
theorem C2_witness :
    ((TextCleanup.cleanup tcOn envGenFail "hello world" "general" 512).result =
        "hello world" ∧
     (TextCleanup.cleanup tcOn envGenFail "hello world" "general" 512).wasRefined =
        false) ∧
    TranscriptionServer.init (Except.ok ()) true "general" true true
        (Except.error "load failed") [] =
      Except.ok ⟨true, "general", none⟩ :=
  ⟨(C2_fault_containment tcOn envGenFail "hello world" "general" 512
      (fun _ _ => ⟨"generation failed", rfl⟩)).1,
   (C2_fault_containment tcOn envGenFail "hello world" "general" 512
      (fun _ _ => ⟨"generation failed", rfl⟩)).2 true "general" [] "load failed"⟩

/-- C3: processing a quit request emits exactly one response,
`{"success": true, "message": "Shutting down"}`, which is the last response
emitted; no line after the quit line is processed; before the quit every
line yields exactly one response; and on a stream with no quit line the
loop processes every line (it terminates only via quit or end-of-input). -/
theorem C3_quit_terminal (srv : TranscriptionServer) (env : Env)
    (pre post : List InLine) (c : Command) (hq : c.action = some "quit")
    (hpre : ∀ l ∈ pre, isQuitLine l = false) :
    runLoop srv env (pre ++ InLine.valid c :: post) =
      runLoop srv env pre ++ [Response.okMessage "Shutting down"] ∧
    (runLoop srv env pre).length = pre.length ∧
    (∀ lines : List InLine, (∀ l ∈ lines, isQuitLine l = false) →
      (runLoop srv env lines).length = lines.length) := by
  refine ⟨?_, runLoop_length_no_quit srv env pre hpre,
    fun lines h => runLoop_length_no_quit srv env lines h⟩
  rw [runLoop_append_no_quit srv env pre _ hpre]
  congr 1
  rw [runLoop_cons]
  have hql : isQuitLine (InLine.valid c) = true := by simp [isQuitLine, hq]
  rw [hql]
  simp

/-- Witness for C3: a ping, then quit, then another ping — the trailing
ping is never processed and the quit response is last. -/
theorem C3_witness :
    runLoop srvPlain envNoFile
        [InLine.valid ⟨some "ping", none, none⟩,
         InLine.valid ⟨some "quit", none, none⟩,
         InLine.valid ⟨some "ping", none, none⟩] =
      [Response.okMessage "pong", Response.okMessage "Shutting down"] := by
  have h := C3_quit_terminal srvPlain envNoFile
    [InLine.valid ⟨some "ping", none, none⟩]
    [InLine.valid ⟨some "ping", none, none⟩]
    ⟨some "quit", none, none⟩ rfl
    (by intro l hl
        rw [List.mem_singleton] at hl
        subst hl
        rfl)
  exact h.1

lemma dictUpdate_lastAssoc (base : String → Option String)
    (ov : List (String × String)) (k : String) :
    dictUpdate base ov k =
      match lastAssoc ov k with
      | some v => some v
      | none => base k := by
  induction ov generalizing base with
  | nil => rfl
  | cons kv rest ih =>
    show dictUpdate (fun q => if q = kv.1 then some kv.2 else base q) rest k = _
    rw [ih]
    simp only [lastAssoc]
    cases hr : lastAssoc rest k with
    | some v => simp
    | none =>
      by_cases hk : k = kv.1
      · simp [hk]
      · simp [hk]

/-- A concrete ASR result used by witnesses. -/
def asrResultW : ASRResult := ⟨"hi there", [⟨"hi there", 0, 2, 2⟩]⟩

/-- An environment whose audio file exists and whose ASR collaborator
returns `asrResultW`; the refinement collaborator faults. -/
def envASR : Env :=
  ⟨fun _ => true, fun _ => Except.ok asrResultW, fun _ => "",
   fun _ _ => Except.error ""⟩

instance (l : List Sentence) : Decidable (timeOrdered l) :=
  inferInstanceAs (Decidable ((∀ s ∈ l, s.start ≤ s.«end») ∧
    l.Chain' (fun a b : Sentence => a.start ≤ b.start)))

/-- C7: on a successful transcribe, the response's `original_text` field is
`original if cleaned != original else None`: it is present (and equal to
the raw transcription) iff the final text differs from the raw text; when
the cleanup step did not refine (`wasRefined = false`) it is `None`; and
when refinement accepted a candidate differing from the raw text, `text` is
that candidate and `original_text` is the raw transcription. -/
theorem C7_original_text (srv : TranscriptionServer) (env : Env) (p : String)
    (cp : Option String) (r : ASRResult)
    (hf : env.fsExists p = true) (ha : env.asr p = Except.ok r) :
    (srv.transcribe env p cp).1 =
      Response.okTranscribe (cleanupStep srv env cp r.text).result
        (if (cleanupStep srv env cp r.text).result = r.text then none
         else some r.text)
        (r.sentences.map fun s => ⟨s.text, s.start, s.«end», s.duration⟩) ∧
    ((if (cleanupStep srv env cp r.text).result = r.text then (none : Option String)
        else some r.text) = some r.text ↔
      (cleanupStep srv env cp r.text).result ≠ r.text) ∧
    ((cleanupStep srv env cp r.text).wasRefined = false →
      (if (cleanupStep srv env cp r.text).result = r.text then (none : Option String)
        else some r.text) = none) ∧
    ((cleanupStep srv env cp r.text).wasRefined = true →
      (cleanupStep srv env cp r.text).result ≠ r.text →
      (if (cleanupStep srv env cp r.text).result = r.text then (none : Option String)
        else some r.text) = some r.text) := by
  refine ⟨?_, ?_, ?_, ?_⟩
  · simp [TranscriptionServer.transcribe, hf, ha]
  · by_cases hres : (cleanupStep srv env cp r.text).result = r.text
    · simp [hres]
    · simp [hres]
  · intro hwr
    exact if_pos (cleanupStep_result_of_not_refined srv env cp r.text hwr)
  · intro _ hne
    exact if_neg hne

/-- Witness for C7: with the refinement subsystem absent, the final text is
the raw transcription and `original_text` is `None`. -/
theorem C7_witness :
    (srvPlain.transcribe envASR "/a.wav" none).1 =
      Response.okTranscribe "hi there" none [⟨"hi there", 0, 2, 2⟩] := by
  have h := C7_original_text srvPlain envASR "/a.wav" none asrResultW rfl rfl
  exact h.1.trans (by decide)

/-- C8: the prompt registry is the built-in table updated key-by-key with
the user overrides (insert-or-replace, last binding wins, never a partial
merge), and resolution `prompts.get(name, prompts["general"])` returns the
registered template when the name is registered and the registry's
`general` entry otherwise. -/
theorem C8_prompt_registry (mlx : Bool) (loadR : Except String Unit)
    (en : Bool) (custom : List (String × String)) (tc : TextCleanup)
    (h : TextCleanup.init mlx loadR en custom = Except.ok tc) :
    (∀ k, tc.prompts k =
      match lastAssoc custom k with
      | some v => some v
      | none => DEFAULT_PROMPTS k) ∧
    (∀ pt v, tc.prompts pt = some v → promptGet tc.prompts pt = some v) ∧
    (∀ pt, tc.prompts pt = none →
      promptGet tc.prompts pt = tc.prompts "general") := by
  have hpr : tc.prompts = dictUpdate DEFAULT_PROMPTS custom := by
    simp only [TextCleanup.init] at h
    split at h
    · split at h
      · cases h; rfl
      · simp at h
    · cases h; rfl
  refine ⟨fun k => ?_, fun pt v hv => ?_, fun pt hn => ?_⟩
  · rw [hpr, dictUpdate_lastAssoc]
  · simp only [promptGet, hv]
  · simp only [promptGet, hn]

/-- Witness for C8: a user override replaces the built-in `coding` entry
wholesale, and an unregistered name resolves to the registry's `general`
entry. -/
theorem C8_witness :
    dictUpdate DEFAULT_PROMPTS [("coding", "custom coding prompt")] "coding" =
      some "custom coding prompt" ∧
    promptGet (dictUpdate DEFAULT_PROMPTS [("coding", "custom coding prompt")])
        "nope" =
      dictUpdate DEFAULT_PROMPTS [("coding", "custom coding prompt")] "general" := by
  have h := C8_prompt_registry false (Except.ok ()) true
    [("coding", "custom coding prompt")]
    ⟨false, dictUpdate DEFAULT_PROMPTS [("coding", "custom coding prompt")]⟩ rfl
  exact ⟨by decide, h.2.2 "nope" (by decide)⟩

/-- C9: a valid transcribe request on an existing file whose ASR
collaborator succeeds gets a success envelope whose sentence list is the
collaborator's list, copied verbatim: when the collaborator's sentences are
time-ordered with `duration = end - start` (the data-model invariant of
`TranscriptionResult`), so are the sentences in the response. -/
theorem C9_time_ordered (srv : TranscriptionServer) (env : Env) (p : String)
    (cp : Option String) (r : ASRResult)
    (hf : env.fsExists p = true) (ha : env.asr p = Except.ok r)
    (hord : timeOrdered r.sentences)
    (hdur : ∀ s ∈ r.sentences, s.duration = s.«end» - s.start) :
    ∃ t ot, (srv.transcribe env p cp).1 = Response.okTranscribe t ot r.sentences ∧
      timeOrdered r.sentences ∧
      (∀ s ∈ r.sentences, s.duration = s.«end» - s.start) := by
  refine ⟨(cleanupStep srv env cp r.text).result,
    if (cleanupStep srv env cp r.text).result = r.text then none else some r.text,
    ?_, hord, hdur⟩
  simp [TranscriptionServer.transcribe, hf, ha, map_sentence_eta]

/-- Witness for C9 on a one-sentence ASR result. -/
theorem C9_witness :
    ∃ t ot, (srvPlain.transcribe envASR "/a.wav" none).1 =
        Response.okTranscribe t ot asrResultW.sentences ∧
      timeOrdered asrResultW.sentences ∧
      (∀ s ∈ asrResultW.sentences, s.duration = s.«end» - s.start) :=
  C9_time_ordered srvPlain envASR "/a.wav" none asrResultW rfl rfl
    (by simp [asrResultW, timeOrdered, zero_le_two])
    (by simp [asrResultW])
